import Mathlib

/-!
Shallow embedding of the reconciliation / sheet-sync logic of
`vinted_price_bot.py` (class `VintedPriceBot`), centred on
`sync_with_google_sheets` (lines 573-758) and the deduplicating collector
loop in `get_listed_items` (lines 442-567).

Conventions:
- Python floats are modelled as exact rationals (ℚ).
- A spreadsheet cell, as returned by `get_all_records`, is either a string
  or a number (`Cell`).
- `existing_dict` (the tracked table keyed by item id) is modelled as a
  list of `Row` in sheet order; being a Python dict it has unique keys.
- Timestamps (`datetime.now().strftime(...)`) are threaded in as an opaque
  string parameter `now`.
-/

/-- One scraped listing, as produced by `get_listed_items`
(`{'id', 'title', 'price', 'url'}`, lines 536-541). -/
structure Item where
  id : String
  title : String
  price : ℚ
  url : String

/-- One spreadsheet cell as surfaced by gspread's `get_all_records`:
either a string or a number. -/
inductive Cell where
  | str (s : String)
  | num (q : ℚ)
deriving DecidableEq

/-- One tracked row of the sheet (the record stored in `existing_dict`,
lines 580-612): the nine columns written at line 657. The `Item ID` key is
always passed through `str(...)`, so it is a plain string. -/
structure Row where
  itemId : String
  urlCell : Cell
  titleCell : Cell
  curPriceCell : Cell
  newPriceCell : Cell
  floorCell : Cell
  percentCell : Cell
  statusCell : Cell
  updatedCell : Cell

/-- Bot configuration relevant to the sync: `DEFAULT_PRICE_CHANGE_PERCENT`
(line 50). -/
structure Config where
  defaultPercent : ℚ

/-! ### Python `str.strip` and `float` on cell contents -/

/-- Whitespace recognised by Python's `str.strip()` (the cases that occur
in sheet cells). -/
def isSpaceChar (c : Char) : Bool :=
  c == ' ' || c == '\t' || c == '\n' || c == '\r'

/-- Model of Python `str.strip()`. -/
def pyStrip (s : String) : String :=
  ⟨((s.data.dropWhile isSpaceChar).reverse.dropWhile isSpaceChar).reverse⟩

/-- Numeric value of a digit string. -/
def digitsVal (l : List Char) : ℕ :=
  l.foldl (fun a c => a * 10 + (c.toNat - 48)) 0

/-- Helper for `pyFloat?`: parse an unsigned decimal literal
(digits, optionally with one dot; at least one digit overall). -/
def pyFloatCore (l : List Char) : Option ℚ :=
  match l.splitOn '.' with
  | [w] =>
      if !w.isEmpty && w.all Char.isDigit then some (digitsVal w : ℚ) else none
  | [w, f] =>
      if (!w.isEmpty || !f.isEmpty) && w.all Char.isDigit && f.all Char.isDigit then
        some ((digitsVal w : ℚ) + (digitsVal f : ℚ) / (10 : ℚ) ^ f.length)
      else none
  | _ => none

/-- Model of Python `float(s)` on the plain decimal literals that occur in
sheet cells: optional sign, digits, optional single dot. Notably a comma
decimal separator (for instance the string 10,5) is NOT accepted, exactly
as `float` raises `ValueError` on it; exponent/inf/nan forms are out of
the modelled fragment. Returns `none` where `float` raises. -/
def pyFloat? (s : String) : Option ℚ :=
  match s.data with
  | '-' :: rest => (pyFloatCore rest).map (fun q => -q)
  | '+' :: rest => pyFloatCore rest
  | l => pyFloatCore l

/-- Resolution of the stored `Price Change %` cell (lines 669-677):
`str(cell).strip()`; if empty use the default, else `float(...)` with the
default on parse failure. A numeric cell round-trips through `str` and
`float` to itself (Python repr round-trip), hence the `num` case. -/
def resolvePercentCell (c : Cell) (d : ℚ) : ℚ :=
  match c with
  | .num q => q
  | .str s =>
      let t := pyStrip s
      if t == "" then d
      else
        match pyFloat? t with
        | some q => q
        | none => d

/-- Resolution of the stored `Floor Price` cell (lines 679-687): empty or
unparsable strings yield `None` (no floor), otherwise the parsed value. -/
def resolveFloorCell (c : Cell) : Option ℚ :=
  match c with
  | .num q => some q
  | .str s =>
      let t := pyStrip s
      if t == "" then none else pyFloat? t

/-! ### Python `round(x, 2)` (round-half-to-even on the exact value) -/

/-- Floor of a rational as an integer, computed structurally
(`q.num.fdiv q.den`, faithful since `q.den > 0`). -/
def qfloor (q : ℚ) : ℤ := q.num.fdiv q.den

/-- Round a rational to the nearest integer, ties to even: the idealised
semantics of Python's `round` on the exact value. -/
def bround (q : ℚ) : ℤ :=
  let f := qfloor q
  let r := q - (f : ℚ)
  if r < 1 / 2 then f
  else if 1 / 2 < r then f + 1
  else if f % 2 = 0 then f else f + 1

/-- Model of Python `round(x, 2)` (line 698). -/
def round2 (q : ℚ) : ℚ := ((bround (q * 100) : ℤ) : ℚ) / 100

/-- New-price computation of lines 697-703: `round(price * (1 + pct/100), 2)`,
then clamp up to the floor price when one is set and the rounded value
falls below it. -/
def computeNewPrice (price pct : ℚ) (fl : Option ℚ) : ℚ :=
  let np := round2 (price * (1 + pct / 100))
  match fl with
  | some f => if np < f then f else np
  | none => np

/-! ### The sync itself -/

/-- Lookup of `item_id` in `existing_dict` (line 629 / 666). The dict has
unique keys, so first match on the entry list is dict lookup. -/
def lookupRow (tracked : List Row) (id : String) : Option Row :=
  tracked.find? (fun r => r.itemId == id)

/-- Result of classifying one snapshot item against the tracked table
(lines 663-695): whether it is a new discovery, and the resolved percent
and floor used for its price computation. -/
structure ClassifyResult where
  isNew : Bool
  pct : ℚ
  fl : Option ℚ

/-- CLassification of one item (lines 663-695): an id present in
`existing_dict` resolves percent/floor from its stored cells; an absent id
is a new discovery with percent forced to 0 and no floor. -/
def classify (cfg : Config) (tracked : List Row) (it : Item) : ClassifyResult :=
  match lookupRow tracked it.id with
  | some r =>
      ⟨false, resolvePercentCell r.percentCell cfg.defaultPercent,
        resolveFloorCell r.floorCell⟩
  | none => ⟨true, 0, none⟩

/-- The row appended to `updated_rows` for one snapshot item
(lines 660-721). Note line 718: the written percent cell is the resolved
percent for an existing item but the configured default for a new one. -/
def activeRow (cfg : Config) (tracked : List Row) (now : String) (it : Item) : Row :=
  let c := classify cfg tracked it
  let np := computeNewPrice it.price c.pct c.fl
  { itemId := it.id
    urlCell := .str it.url
    titleCell := .str it.title
    curPriceCell := .num it.price
    newPriceCell := .num np
    floorCell := match c.fl with | some f => .num f | none => .str ""
    percentCell := .num (if c.isNew then cfg.defaultPercent else c.pct)
    statusCell := .str (if c.isNew then "🆕 New" else "Active")
    updatedCell := .str now }

/-- The row appended for a tracked id absent from the snapshot
(lines 724-737): URL/Title/Current Price/New Price/Floor Price cells are
carried over verbatim from the old record, percent is forced to 0, status
becomes Sold/Removed, and the timestamp is refreshed. -/
def removedRow (now : String) (r : Row) : Row :=
  { itemId := r.itemId
    urlCell := r.urlCell
    titleCell := r.titleCell
    curPriceCell := r.curPriceCell
    newPriceCell := r.newPriceCell
    floorCell := r.floorCell
    percentCell := .num 0
    statusCell := .str "❌ Sold/Removed"
    updatedCell := .str now }

/-- The data rows of `updated_rows` built by `sync_with_google_sheets`
(lines 656-737, header row excluded): one row per snapshot item in
snapshot order, then one row per tracked id absent from the snapshot in
table order (lines 634-637 compute exactly that id set). -/
def syncRows (cfg : Config) (tracked : List Row) (now : String)
    (items : List Item) : List Row :=
  items.map (activeRow cfg tracked now) ++
    ((tracked.filter
        (fun r => !(items.any (fun it => it.id == r.itemId)))).map
      (removedRow now))

/-- One contiguous range write against the sheet, identified by its first
and last 1-based row numbers. -/
structure RangeWrite where
  firstRow : ℕ
  lastRow : ℕ
deriving DecidableEq

/-- The staged write operations of a sync run (lines 739-741): the sheet
is cleared and then a single range update over `A1:I(n+1)` is issued,
covering the header row and every data row. There is no grouping by dirty
rows and no inter-write delay: the whole table is one write. -/
def writeOps (rows : List Row) : List RangeWrite :=
  [⟨1, rows.length + 1⟩]

/-- Write operations staged by a full sync run. -/
def syncWriteOps (cfg : Config) (tracked : List Row) (now : String)
    (items : List Item) : List RangeWrite :=
  writeOps (syncRows cfg tracked now items)

/-- Whether the sync run stages a (re)write of the row of a given id.
Since lines 739-741 clear the sheet and rewrite every row of
`updated_rows` in one range update, a row write is staged for an id
exactly when the resulting table contains a row for it. -/
def stagesWriteFor (cfg : Config) (tracked : List Row) (now : String)
    (items : List Item) (id : String) : Bool :=
  (syncRows cfg tracked now items).any (fun r => r.itemId == id)

/-- The deduplicating collector loop of `get_listed_items`
(lines 455-543): items are taken in scrape order, and an id already in
`processed_ids` is skipped, so only the first occurrence of each id is
kept. `seen` is the accumulated `processed_ids` set. -/
def collectItems : List Item → List String → List Item
  | [], _ => []
  | it :: rest, seen =>
      if seen.contains it.id then collectItems rest seen
      else it :: collectItems rest (it.id :: seen)

/-- Whether a cell is blank or unparsable as a number after stripping,
i.e. the condition under which the code at lines 669-687 falls back to
the default percent / absent floor. -/
def cellBlankOrUnparsable (c : Cell) : Bool :=
  match c with
  | .num _ => false
  | .str s => pyStrip s == "" || (pyFloat? (pyStrip s)).isNone

/-- Dirtiness predicate as the SPEC words it (claim C1): the current
price differs from the persisted one by more than 0.05 currency units, or
the status, title or url differs. Stated from the spec for comparison
with the code model, which has no such notion. -/
def specDirty (oldPrice newPrice : ℚ)
    (oldStatus newStatus oldTitle newTitle oldUrl newUrl : String) : Prop :=
  1 / 20 < |newPrice - oldPrice| ∨ oldStatus ≠ newStatus ∨
    oldTitle ≠ newTitle ∨ oldUrl ≠ newUrl

/-! ### Concrete fixtures used by witnesses and counterexamples -/

/-- Configuration with the shipped default of -2 percent (line 50). -/
def exCfg : Config := ⟨-2⟩

/-- Snapshot item identical to the persisted row `c1Row`. -/
def c1Item : Item := ⟨"1", "T", 20, "u"⟩

/-- Persisted row matching `c1Item` exactly (same price, status, title,
url), so none of the spec's dirtiness conditions hold for it. -/
def c1Row : Row :=
  ⟨"1", .str "u", .str "T", .num 20, .num 22, .str "", .num 10,
    .str "Active", .str "t0"⟩

/-- Snapshot item for the floor-clamping scenario (price 18.00). -/
def c2Item : Item := ⟨"42", "T", 18, "u42"⟩

/-- Persisted row with stored percent -50 and floor 10.00. -/
def c2Row : Row :=
  ⟨"42", .str "u42", .str "T", .num 20, .num 22, .str "10.00", .str "-50",
    .str "Active", .str "t0"⟩

/-- Snapshot item not present in any tracked table (brand new). -/
def c3Item : Item := ⟨"7", "N", 20, "u7"⟩

/-- Persisted row for an id that the snapshot no longer contains. -/
def c4Row : Row :=
  ⟨"99", .str "u99", .str "Old", .num 15, .num 14, .str "", .num 5,
    .str "Active", .str "t0"⟩

/-- Persisted row whose Price Change % cell is blank. -/
def c5Row : Row :=
  ⟨"5", .str "u5", .str "T5", .num 20, .num 20, .str "", .str "",
    .str "Active", .str "t0"⟩

/-- Snapshot item matching `c5Row`. -/
def c5Item : Item := ⟨"5", "T5", 20, "u5"⟩

/-- Persisted row with numeric percent and floor cells. -/
def c5NumRow : Row :=
  ⟨"6", .str "u6", .str "T6", .num 20, .num 21, .num 5, .num 10,
    .str "Active", .str "t0"⟩

/-- Snapshot item matching `c5NumRow`. -/
def c5NumItem : Item := ⟨"6", "T6", 20, "u6"⟩

/-- Small snapshot for exercising the write-plan shape. -/
def c6Items : List Item :=
  [⟨"a", "A", 10, "ua"⟩, ⟨"b", "B", 11, "ub"⟩, ⟨"c", "C", 12, "uc"⟩]

/-- Snapshot containing the same id twice. -/
def dupItems : List Item := [⟨"1", "A", 10, "uA"⟩, ⟨"1", "B", 12, "uB"⟩]

/-- Snapshot item matching `c8Row`. -/
def c8Item : Item := ⟨"8", "T8", 20, "u8"⟩

/-- Persisted row whose percent cell is whitespace and whose floor cell is
not a number. -/
def c8Row : Row :=
  ⟨"8", .str "u8", .str "T8", .num 20, .num 20, .str "abc", .str " ",
    .str "Active", .str "t0"⟩

/-- Persisted row with a blank percent cell but a parseable floor cell
10.00 — the mixed configuration of a user who left the percent at the
default while setting a floor. -/
def c8MixedRow : Row :=
  ⟨"8", .str "u8", .str "T8", .num 20, .num 20, .str "10.00", .str "",
    .str "Active", .str "t0"⟩

/-- Snapshot item for the repeated-run scenario. -/
def c9Item : Item := ⟨"9", "T9", 20, "u9"⟩

/-- Persisted row whose status is Sold/Removed although its id reappears
in the snapshot. -/
def c10Row : Row :=
  ⟨"10", .str "u10", .str "T10", .num 20, .num 19, .str "", .num (-50),
    .str "❌ Sold/Removed", .str "t0"⟩

/-- Snapshot item matching `c10Row`, observed again at price 18. -/
def c10Item : Item := ⟨"10", "T10", 18, "u10"⟩

/-! ### Helper lemmas -/

theorem qfloor_intCast (n : ℤ) : qfloor (n : ℚ) = n := by
  simp [qfloor]

theorem bround_intCast (n : ℤ) : bround (n : ℚ) = n := by
  unfold bround
  rw [qfloor_intCast]
  norm_num

theorem round2_eq (q : ℚ) (n : ℤ) (h : q * 100 = (n : ℚ)) :
    round2 q = (n : ℚ) / 100 := by
  unfold round2
  rw [h, bround_intCast]

theorem round2_cents (n : ℤ) : round2 ((n : ℚ) / 100) = (n : ℚ) / 100 :=
  round2_eq _ n (by field_simp)

/-! ### Claim theorems -/

/-- C2: for every snapshot listing with resolved percent p and current
price c, the engine stores new_price = round2 (c * (1 + p / 100)) in the
written row; when no floor is set the computed value is exactly the
rounded one; when a floor f is set, a rounded value below f is replaced
by f, and the emitted new_price is never below f. -/
theorem c2_new_price_formula_and_floor (cfg : Config) (tracked : List Row)
    (now : String) (it : Item) :
    (activeRow cfg tracked now it).newPriceCell =
      Cell.num (computeNewPrice it.price (classify cfg tracked it).pct
        (classify cfg tracked it).fl) ∧
    ((classify cfg tracked it).fl = none →
      computeNewPrice it.price (classify cfg tracked it).pct none =
        round2 (it.price * (1 + (classify cfg tracked it).pct / 100))) ∧
    (∀ f, (classify cfg tracked it).fl = some f →
      (round2 (it.price * (1 + (classify cfg tracked it).pct / 100)) < f →
        computeNewPrice it.price (classify cfg tracked it).pct (some f) = f) ∧
      f ≤ computeNewPrice it.price (classify cfg tracked it).pct (some f)) := by
  refine ⟨rfl, fun _ => rfl, fun f _ => ⟨fun hlt => ?_, ?_⟩⟩
  · simp only [computeNewPrice, if_pos hlt]
  · simp only [computeNewPrice]
    split
    · exact le_refl f
    · exact le_of_not_lt (by assumption)

/-- C2 witness: the spec scenario price 18, stored percent -50, floor
10.00; the rounded value 9.00 is clamped up to the floor 10.00. -/
theorem c2_witness :
    (classify exCfg [c2Row] c2Item).fl = some 10 ∧
    (10 : ℚ) ≤ computeNewPrice c2Item.price (classify exCfg [c2Row] c2Item).pct
      (some 10) := by
  have hfl : (classify exCfg [c2Row] c2Item).fl = some 10 := by
    have h : (classify exCfg [c2Row] c2Item).fl =
        some (((10 : ℕ) : ℚ) + ((0 : ℕ) : ℚ) / (10 : ℚ) ^ (2 : ℕ)) := rfl
    rw [h]; norm_num
  exact ⟨hfl, ((c2_new_price_formula_and_floor exCfg [c2Row] "t1" c2Item).2.2 10 hfl).2⟩

/-- C3: a snapshot listing whose id is not tracked is classified as a new
discovery, its percent is forced to 0 and its floor to absent, and (for a
price that is a whole number of cents, as currency amounts are) the
written new_price equals the current price, whatever the configured
default percent is. -/
theorem c3_new_item_price_unchanged (cfg : Config) (tracked : List Row)
    (now : String) (it : Item) (n : ℤ)
    (hnew : lookupRow tracked it.id = none)
    (hcents : it.price = (n : ℚ) / 100) :
    (classify cfg tracked it).isNew = true ∧
    (classify cfg tracked it).pct = 0 ∧
    (classify cfg tracked it).fl = none ∧
    (activeRow cfg tracked now it).newPriceCell = Cell.num it.price := by
  have hc : classify cfg tracked it = ⟨true, 0, none⟩ := by
    unfold classify
    rw [hnew]
  refine ⟨by rw [hc], by rw [hc], by rw [hc], ?_⟩
  show Cell.num (computeNewPrice it.price (classify cfg tracked it).pct
    (classify cfg tracked it).fl) = Cell.num it.price
  rw [hc]
  show Cell.num (computeNewPrice it.price 0 none) = Cell.num it.price
  unfold computeNewPrice
  have harg : it.price * (1 + 0 / 100) = (n : ℚ) / 100 := by
    rw [hcents]; ring
  rw [harg, round2_cents, ← hcents]

/-- C3 witness: a brand-new item priced 20.00 against an empty tracked
table keeps new_price = 20.00 under the default percent -2. -/
theorem c3_witness :
    lookupRow [] c3Item.id = none ∧
    c3Item.price = ((2000 : ℤ) : ℚ) / 100 ∧
    (activeRow exCfg [] "t1" c3Item).newPriceCell = Cell.num c3Item.price := by
  have hp : c3Item.price = ((2000 : ℤ) : ℚ) / 100 := by
    show (20 : ℚ) = ((2000 : ℤ) : ℚ) / 100
    norm_num
  exact ⟨rfl, hp,
    (c3_new_item_price_unchanged exCfg [] "t1" c3Item 2000 rfl hp).2.2.2⟩

/-- C1 counterexample: a listing present in both the snapshot and the
tracked table with identical price, status, title and url — none of the
spec's dirtiness conditions hold — yet the engine still stages a write
for its row, because lines 739-741 clear the sheet and rewrite every row.
The claimed equivalence is therefore false at this input. -/
theorem c1_counterexample :
    ¬ (stagesWriteFor exCfg [c1Row] "t1" [c1Item] "1" = true ↔
        specDirty 20 20 "Active" "Active" "T" "T" "u" "u") := by
  intro h
  have hw : stagesWriteFor exCfg [c1Row] "t1" [c1Item] "1" = true := rfl
  rcases h.mp hw with hp | hs | ht | hu
  · norm_num at hp
  · exact hs rfl
  · exact ht rfl
  · exact hu rfl

/-- C1 (amended): the engine has no change detection at all; the sheet is
cleared and fully rewritten, so a write is staged for every listing of
the snapshot — tracked or not, changed or not. -/
theorem c1_every_row_rewritten (cfg : Config) (tracked : List Row)
    (now : String) (items : List Item) (it : Item) (h : it ∈ items) :
    stagesWriteFor cfg tracked now items it.id = true := by
  unfold stagesWriteFor syncRows
  rw [List.any_eq_true]
  exact ⟨activeRow cfg tracked now it,
    List.mem_append_left _ (List.mem_map_of_mem _ h),
    by simp [activeRow]⟩

/-- C1 witness: the unchanged listing of the counterexample still gets
its row write staged. -/
theorem c1_every_row_rewritten_witness :
    c1Item ∈ [c1Item] ∧
    stagesWriteFor exCfg [c1Row] "t1" [c1Item] c1Item.id = true :=
  ⟨by simp, c1_every_row_rewritten exCfg [c1Row] "t1" [c1Item] c1Item (by simp)⟩

/-- C4: a tracked row whose id is absent from the snapshot is re-emitted
with status Sold/Removed and percent 0, while its Current Price,
New Price and Floor Price cells are carried over verbatim. -/
theorem c4_sold_removed_carry (cfg : Config) (tracked : List Row)
    (now : String) (items : List Item) (r : Row)
    (hmem : r ∈ tracked)
    (habsent : ∀ it ∈ items, it.id ≠ r.itemId) :
    removedRow now r ∈ syncRows cfg tracked now items ∧
    (removedRow now r).statusCell = Cell.str "❌ Sold/Removed" ∧
    (removedRow now r).percentCell = Cell.num 0 ∧
    (removedRow now r).curPriceCell = r.curPriceCell ∧
    (removedRow now r).newPriceCell = r.newPriceCell ∧
    (removedRow now r).floorCell = r.floorCell := by
  refine ⟨?_, rfl, rfl, rfl, rfl, rfl⟩
  unfold syncRows
  refine List.mem_append_right _ (List.mem_map_of_mem _ ?_)
  rw [List.mem_filter]
  refine ⟨hmem, ?_⟩
  rw [Bool.not_eq_eq_eq_not, Bool.not_true, List.any_eq_false]
  intro it hit
  simp only [beq_iff_eq]
  exact habsent it hit

/-- C4 witness: the tracked row of id 99 against a snapshot that does not
contain it. -/
theorem c4_sold_removed_carry_witness :
    c4Row ∈ [c4Row] ∧
    (∀ it ∈ ([] : List Item), it.id ≠ c4Row.itemId) ∧
    removedRow "t1" c4Row ∈ syncRows exCfg [c4Row] "t1" [] ∧
    (removedRow "t1" c4Row).percentCell = Cell.num 0 :=
  ⟨by simp, by simp,
    (c4_sold_removed_carry exCfg [c4Row] "t1" [] c4Row (by simp) (by simp)).1,
    (c4_sold_removed_carry exCfg [c4Row] "t1" [] c4Row (by simp) (by simp)).2.2.1⟩

/-- C5 counterexample: a tracked (not brand-new) row whose stored
Price Change % cell is blank gets the configured default -2 written into
that cell by the sync (line 718), so the persisted user-owned cell is NOT
left unchanged. -/
theorem c5_counterexample :
    (activeRow exCfg [c5Row] "t1" c5Item).percentCell = Cell.num (-2) ∧
    c5Row.percentCell = Cell.str "" ∧
    (activeRow exCfg [c5Row] "t1" c5Item).percentCell ≠ c5Row.percentCell := by
  refine ⟨rfl, rfl, ?_⟩
  intro h
  exact Cell.noConfusion h

/-- C5 (amended): the engine rewrites the floor and percent cells of every
synced row each run with the RESOLVED values — the stored percent when it
parses, otherwise the configured default; the stored floor when it
parses, otherwise blank — so those user-owned cells are preserved exactly
when they already hold parseable numbers (in particular numeric cells are
preserved verbatim); a brand-new row is seeded with the default percent
and a blank floor. -/
theorem c5_user_cells_rewritten_with_resolved (cfg : Config)
    (tracked : List Row) (now : String) (it : Item) :
    (∀ r, lookupRow tracked it.id = some r →
      (activeRow cfg tracked now it).percentCell =
        Cell.num (resolvePercentCell r.percentCell cfg.defaultPercent) ∧
      (activeRow cfg tracked now it).floorCell =
        (match resolveFloorCell r.floorCell with
          | some f => Cell.num f
          | none => Cell.str "") ∧
      (∀ q, r.percentCell = Cell.num q →
        (activeRow cfg tracked now it).percentCell = Cell.num q) ∧
      (∀ q, r.floorCell = Cell.num q →
        (activeRow cfg tracked now it).floorCell = Cell.num q)) ∧
    (lookupRow tracked it.id = none →
      (activeRow cfg tracked now it).percentCell = Cell.num cfg.defaultPercent ∧
      (activeRow cfg tracked now it).floorCell = Cell.str "") := by
  constructor
  · intro r h
    have hc : classify cfg tracked it =
        ⟨false, resolvePercentCell r.percentCell cfg.defaultPercent,
          resolveFloorCell r.floorCell⟩ := by
      unfold classify
      rw [h]
    have hpc : (activeRow cfg tracked now it).percentCell =
        Cell.num (resolvePercentCell r.percentCell cfg.defaultPercent) := by
      show Cell.num (if (classify cfg tracked it).isNew then cfg.defaultPercent
        else (classify cfg tracked it).pct) = _
      rw [hc]
      rfl
    have hfc : (activeRow cfg tracked now it).floorCell =
        (match resolveFloorCell r.floorCell with
          | some f => Cell.num f
          | none => Cell.str "") := by
      show (match (classify cfg tracked it).fl with
        | some f => Cell.num f
        | none => Cell.str "") = _
      rw [hc]
    refine ⟨hpc, hfc, ?_, ?_⟩
    · intro q hq
      rw [hpc, hq]
      rfl
    · intro q hq
      rw [hfc, hq]
      rfl
  · intro h
    have hc : classify cfg tracked it = ⟨true, 0, none⟩ := by
      unfold classify
      rw [h]
    constructor
    · show Cell.num (if (classify cfg tracked it).isNew then cfg.defaultPercent
        else (classify cfg tracked it).pct) = _
      rw [hc]
      rfl
    · show (match (classify cfg tracked it).fl with
        | some f => Cell.num f
        | none => Cell.str "") = _
      rw [hc]

/-- C5 witness: a tracked row with numeric percent 10 and floor 5 keeps
exactly those values in the rewritten row, and a brand-new item is seeded
with the default percent -2 and a blank floor. -/
theorem c5_user_cells_rewritten_with_resolved_witness :
    (activeRow exCfg [c5NumRow] "t1" c5NumItem).percentCell = Cell.num 10 ∧
    (activeRow exCfg [c5NumRow] "t1" c5NumItem).floorCell = Cell.num 5 ∧
    (activeRow exCfg [] "t1" c3Item).percentCell = Cell.num (-2) ∧
    (activeRow exCfg [] "t1" c3Item).floorCell = Cell.str "" :=
  ⟨((c5_user_cells_rewritten_with_resolved exCfg [c5NumRow] "t1" c5NumItem).1
      c5NumRow rfl).2.2.1 10 rfl,
    ((c5_user_cells_rewritten_with_resolved exCfg [c5NumRow] "t1" c5NumItem).1
      c5NumRow rfl).2.2.2 5 rfl,
    ((c5_user_cells_rewritten_with_resolved exCfg [] "t1" c3Item).2 rfl).1,
    ((c5_user_cells_rewritten_with_resolved exCfg [] "t1" c3Item).2 rfl).2⟩

/-- C6 counterexample: whatever the set of changed rows, the staged plan
is a single whole-table range write; it is never the three groups
10-59, 100-100, 150-151 that the claim mandates for the scattered-dirty
scenario. Here a concrete run stages exactly one group. -/
theorem c6_counterexample :
    syncWriteOps exCfg [] "t1" c6Items ≠
      [⟨10, 59⟩, ⟨100, 100⟩, ⟨150, 151⟩] := by
  intro h
  have hl := congrArg List.length h
  simp [syncWriteOps, writeOps] at hl

/-- C6 (amended): the write plan of a sync run is always exactly one
range write, starting at row 1 and spanning the header plus every data
row; there is no grouping of dirty rows and no inter-group delay. -/
theorem c6_single_range_write (cfg : Config) (tracked : List Row)
    (now : String) (items : List Item) :
    syncWriteOps cfg tracked now items =
      [⟨1, (syncRows cfg tracked now items).length + 1⟩] ∧
    (syncWriteOps cfg tracked now items).length = 1 :=
  ⟨rfl, rfl⟩

/-- Helper (C7): the collector loop keeps at most one item per id — the
ids of its output are pairwise distinct and disjoint from the already
processed set. -/
theorem collectItems_ids_nodup (links : List Item) (seen : List String) :
    ((collectItems links seen).map (fun it => it.id)).Nodup ∧
    ∀ s ∈ (collectItems links seen).map (fun it => it.id),
      seen.contains s = false := by
  induction links generalizing seen with
  | nil => simp [collectItems]
  | cons it rest ih =>
    by_cases h : seen.contains it.id = true
    · rw [collectItems, if_pos h]
      exact ih seen
    · rw [collectItems, if_neg h]
      rw [List.map_cons]
      have htail := ih (it.id :: seen)
      constructor
      · rw [List.nodup_cons]
        refine ⟨?_, htail.1⟩
        intro hmem
        have hcontains := htail.2 it.id hmem
        simp [List.contains_cons] at hcontains
      · intro s hs
        rcases List.mem_cons.mp hs with hs | hs
        · rw [hs]
          exact Bool.not_eq_true _ ▸ (Bool.eq_false_iff.mpr h)
        · have hcontains := htail.2 s hs
          simp only [List.contains_cons, Bool.or_eq_false_iff] at hcontains
          exact hcontains.2

/-- Helper (C7): if both the snapshot ids and the tracked ids are
pairwise distinct, the synced table has pairwise distinct ids (active
rows keep snapshot ids; removed rows keep tracked ids, which by
construction do not occur in the snapshot). -/
theorem syncRows_ids_nodup (cfg : Config) (tracked : List Row) (now : String)
    (items : List Item)
    (hitems : (items.map (fun it => it.id)).Nodup)
    (htr : (tracked.map (fun r => r.itemId)).Nodup) :
    ((syncRows cfg tracked now items).map (fun r => r.itemId)).Nodup := by
  unfold syncRows
  rw [List.map_append, List.nodup_append]
  refine ⟨?_, ?_, ?_⟩
  · rw [List.map_map]
    exact hitems
  · rw [List.map_map]
    exact List.Nodup.sublist
      ((List.filter_sublist tracked).map (fun r => r.itemId)) htr
  · intro x hx1 hx2
    rw [List.map_map, List.mem_map] at hx1
    rcases hx1 with ⟨it, hit, hxid⟩
    rw [List.map_map, List.mem_map] at hx2
    rcases hx2 with ⟨r, hr, hxr⟩
    have hpred := (List.mem_filter.mp hr).2
    rw [Bool.not_eq_eq_eq_not, Bool.not_true, List.any_eq_false] at hpred
    have hne := hpred it hit
    apply hne
    rw [beq_iff_eq]
    have h1 : it.id = x := hxid
    have h2 : r.itemId = x := hxr
    exact h1.trans h2.symm

/-- C7 counterexample: the sync engine itself performs no deduplication;
a snapshot containing id 1 twice yields a table with TWO rows for that
id, not exactly one. -/
theorem c7_counterexample :
    ¬ ((syncRows exCfg [] "t1" dupItems).countP
        (fun r => r.itemId == "1") = 1) := by
  intro h
  have h2 : (syncRows exCfg [] "t1" dupItems).countP
      (fun r => r.itemId == "1") = 2 := rfl
  rw [h2] at h
  exact absurd h (by decide)

/-- C7 (amended): deduplication by first occurrence happens in the
collector, not the engine: the collector never emits the same id twice,
and the sync of a collector-produced snapshot against a key-unique
tracked table never creates two rows with the same id. -/
theorem c7_dedup_in_collector_not_engine (links : List Item) (cfg : Config)
    (tracked : List Row) (now : String)
    (htr : (tracked.map (fun r => r.itemId)).Nodup) :
    ((collectItems links []).map (fun it => it.id)).Nodup ∧
    ((syncRows cfg tracked now (collectItems links [])).map
      (fun r => r.itemId)).Nodup :=
  ⟨(collectItems_ids_nodup links []).1,
    syncRows_ids_nodup cfg tracked now _ (collectItems_ids_nodup links []).1 htr⟩

/-- C7 witness: the duplicate-id scrape result, collected and synced
against an empty table, has pairwise distinct row ids. -/
theorem c7_dedup_witness :
    (([] : List Row).map (fun r => r.itemId)).Nodup ∧
    ((syncRows exCfg [] "t1" (collectItems dupItems [])).map
      (fun r => r.itemId)).Nodup :=
  ⟨by simp, (c7_dedup_in_collector_not_engine dupItems exCfg [] "t1" (by simp)).2⟩

/-- C8 counterexample: a stored percent cell with a comma decimal
separator is NOT normalized to a dot — the sync path has no comma
handling (only the scraper's price-text parsing does), so the cell is
unparsable and falls back to the default -2 instead of resolving to
10.5. -/
theorem c8_counterexample :
    resolvePercentCell (Cell.str "10,5") (-2) = -2 ∧
    resolvePercentCell (Cell.str "10,5") (-2) ≠ 21 / 2 := by
  have h : resolvePercentCell (Cell.str "10,5") (-2) = -2 := rfl
  refine ⟨h, ?_⟩
  rw [h]
  norm_num

/-- C8 (amended): two INDEPENDENT fallbacks — a blank or unparsable
stored percent resolves to the configured default, and a blank or
unparsable stored floor resolves to absent — each regardless of the
other cell's state; the resolution is total, so a malformed cell cannot
abort the other rows. (Comma decimals count as unparsable; only the
scraper normalizes them, not the sheet reader.) -/
theorem c8_blank_or_unparsable_fallback (cfg : Config) (tracked : List Row)
    (it : Item) (r : Row)
    (h : lookupRow tracked it.id = some r) :
    (cellBlankOrUnparsable r.percentCell = true →
      (classify cfg tracked it).pct = cfg.defaultPercent) ∧
    (cellBlankOrUnparsable r.floorCell = true →
      (classify cfg tracked it).fl = none) := by
  have hc : classify cfg tracked it =
      ⟨false, resolvePercentCell r.percentCell cfg.defaultPercent,
        resolveFloorCell r.floorCell⟩ := by
    unfold classify
    rw [h]
  rw [hc]
  constructor
  · intro hp
    show resolvePercentCell r.percentCell cfg.defaultPercent = cfg.defaultPercent
    cases hcell : r.percentCell with
    | num q =>
        rw [hcell] at hp
        exact absurd hp (by simp [cellBlankOrUnparsable])
    | str s =>
        rw [hcell] at hp
        simp only [cellBlankOrUnparsable, Bool.or_eq_true] at hp
        simp only [resolvePercentCell]
        rcases hp with h1 | h1
        · rw [if_pos h1]
        · by_cases h2 : (pyStrip s == "") = true
          · rw [if_pos h2]
          · rw [if_neg h2, Option.isNone_iff_eq_none.mp h1]
  · intro hf
    show resolveFloorCell r.floorCell = none
    cases hcell : r.floorCell with
    | num q =>
        rw [hcell] at hf
        exact absurd hf (by simp [cellBlankOrUnparsable])
    | str s =>
        rw [hcell] at hf
        simp only [cellBlankOrUnparsable, Bool.or_eq_true] at hf
        simp only [resolveFloorCell]
        rcases hf with h1 | h1
        · rw [if_pos h1]
        · by_cases h2 : (pyStrip s == "") = true
          · rw [if_pos h2]
          · rw [if_neg h2]
            exact Option.isNone_iff_eq_none.mp h1

/-- C8 witness: the mixed row with a blank percent cell but a parseable
floor cell 10.00 resolves its percent to the default -2 while keeping
the floor 10; and independently, the row whose floor cell is the string
abc resolves its floor to absent. -/
theorem c8_blank_or_unparsable_fallback_witness :
    lookupRow [c8MixedRow] c8Item.id = some c8MixedRow ∧
    cellBlankOrUnparsable c8MixedRow.percentCell = true ∧
    cellBlankOrUnparsable c8MixedRow.floorCell = false ∧
    (classify exCfg [c8MixedRow] c8Item).pct = (-2 : ℚ) ∧
    (classify exCfg [c8MixedRow] c8Item).fl = some 10 ∧
    cellBlankOrUnparsable c8Row.floorCell = true ∧
    (classify exCfg [c8Row] c8Item).fl = none := by
  have hyp1 :=
    (c8_blank_or_unparsable_fallback exCfg [c8MixedRow] c8Item c8MixedRow rfl).1 rfl
  have hyp2 :=
    (c8_blank_or_unparsable_fallback exCfg [c8Row] c8Item c8Row rfl).2 rfl
  have hfl : (classify exCfg [c8MixedRow] c8Item).fl = some 10 := by
    have h : (classify exCfg [c8MixedRow] c8Item).fl =
        some (((10 : ℕ) : ℚ) + ((0 : ℕ) : ℚ) / (10 : ℚ) ^ (2 : ℕ)) := rfl
    rw [h]
    norm_num
  exact ⟨rfl, rfl, rfl, hyp1, hfl, rfl, hyp2⟩

/-- C9 counterexample: running the sync a second time on the very table
the first run produced, with the same snapshot, again stages a write for
the listing's row — the claimed zero staged row writes is false. -/
theorem c9_counterexample :
    ¬ ((syncRows exCfg (syncRows exCfg [] "t1" [c9Item]) "t2"
        [c9Item]).length = 0) ∧
    stagesWriteFor exCfg (syncRows exCfg [] "t1" [c9Item]) "t2" [c9Item]
      c9Item.id = true := by
  constructor
  · intro h
    have h2 : (syncRows exCfg (syncRows exCfg [] "t1" [c9Item]) "t2"
        [c9Item]).length = 1 := rfl
    rw [h2] at h
    exact absurd h (by decide)
  · rfl

/-- C9 (amended): the sync is not incremental: the second run, like
every run, clears the sheet and stages a single whole-table range write
covering the header and all of its rows — at least one row per snapshot
item — rather than zero writes. -/
theorem c9_second_run_full_write (cfg : Config) (tracked : List Row)
    (t1 t2 : String) (items : List Item) :
    syncWriteOps cfg (syncRows cfg tracked t1 items) t2 items =
      [⟨1, (syncRows cfg (syncRows cfg tracked t1 items) t2 items).length + 1⟩] ∧
    items.length ≤
      (syncRows cfg (syncRows cfg tracked t1 items) t2 items).length := by
  refine ⟨rfl, ?_⟩
  simp only [syncRows, List.length_append, List.length_map]
  omega

/-- C10: a snapshot listing whose id is tracked with status Sold/Removed
is classified as existing (not New), written back with status Active,
and its stored percent and floor policy is applied to its price on that
same run. -/
theorem c10_reappeared_sold_is_active (cfg : Config) (tracked : List Row)
    (now : String) (it : Item) (r : Row)
    (h : lookupRow tracked it.id = some r)
    (hsold : r.statusCell = Cell.str "❌ Sold/Removed") :
    (classify cfg tracked it).isNew = false ∧
    (activeRow cfg tracked now it).statusCell = Cell.str "Active" ∧
    (activeRow cfg tracked now it).percentCell =
      Cell.num (resolvePercentCell r.percentCell cfg.defaultPercent) ∧
    (activeRow cfg tracked now it).newPriceCell =
      Cell.num (computeNewPrice it.price
        (resolvePercentCell r.percentCell cfg.defaultPercent)
        (resolveFloorCell r.floorCell)) := by
  have hc : classify cfg tracked it =
      ⟨false, resolvePercentCell r.percentCell cfg.defaultPercent,
        resolveFloorCell r.floorCell⟩ := by
    unfold classify
    rw [h]
  refine ⟨by rw [hc], ?_, ?_, ?_⟩
  · show Cell.str (if (classify cfg tracked it).isNew then "🆕 New"
      else "Active") = _
    rw [hc]
    rfl
  · show Cell.num (if (classify cfg tracked it).isNew then cfg.defaultPercent
      else (classify cfg tracked it).pct) = _
    rw [hc]
    rfl
  · show Cell.num (computeNewPrice it.price (classify cfg tracked it).pct
      (classify cfg tracked it).fl) = _
    rw [hc]

/-- C10 witness: the Sold/Removed row of id 10, reappearing in the
snapshot at price 18, is re-emitted as Active. -/
theorem c10_reappeared_witness :
    lookupRow [c10Row] c10Item.id = some c10Row ∧
    c10Row.statusCell = Cell.str "❌ Sold/Removed" ∧
    (classify exCfg [c10Row] c10Item).isNew = false ∧
    (activeRow exCfg [c10Row] "t1" c10Item).statusCell = Cell.str "Active" := by
  have hyp := c10_reappeared_sold_is_active exCfg [c10Row] "t1" c10Item c10Row rfl rfl
  exact ⟨rfl, rfl, hyp.1, hyp.2.1⟩
